import Mathlib

/-!
Verification of the detection-decoding and drowsiness-classification pipeline
of `drowsiness_yolo_pose.py`.

Numbers are modelled as rationals (`ℚ`); Python's `int(...)` conversion,
which truncates toward zero, is modelled by `pyInt`.  Python indexing that
can raise (`detection[i]`, triple unpacking from a short slice) is modelled
by `Except String`, an `Except.error` standing for an uncaught Python
exception that propagates out of `process_pose_detections`.
-/

/-- Python `int(q)` for a rational `q`: truncation toward zero. -/
def pyInt (q : ℚ) : ℤ :=
  if 0 ≤ q then ⌊q⌋ else ⌈q⌉

/-- Head keypoint indices from `check_drowsiness`
(nose, left_eye, right_eye, left_ear, right_ear). -/
def headIndices : List ℕ := [0, 1, 2, 3, 4]

/-- Shoulder keypoint indices from `check_drowsiness`
(left_shoulder, right_shoulder). -/
def shoulderIndices : List ℕ := [5, 6]

/-- The y-coordinate collection loops of `check_drowsiness`: walk the given
indices in order and keep the y-coordinate of each keypoint whose confidence
is strictly above the threshold.  A keypoint is `(x, y, conf)`.  Indexing is
total with a default entry; every call site passes a 17-entry list, for which
it agrees with Python's `keypoints[idx]`. -/
def collectYCoords (keypoints : List (ℚ × ℚ × ℚ)) (idxs : List ℕ) (t : ℚ) : List ℚ :=
  (idxs.map fun idx => keypoints.getD idx (0, 0, 0)).filterMap
    (fun kp => if kp.2.2 > t then some kp.2.1 else none)

/-- Arithmetic mean of a list of rationals, as `sum(l) / len(l)`. -/
def listMean (l : List ℚ) : ℚ :=
  l.sum / l.length

/-- Embedding of `check_drowsiness(keypoints, kpt_conf_threshold)`:
collect confident head and shoulder y-coordinates; if either list is empty
return `false`; otherwise compare the two arithmetic means. -/
def check_drowsiness (keypoints : List (ℚ × ℚ × ℚ)) (kpt_conf_threshold : ℚ) : Bool :=
  let head_y_coords := collectYCoords keypoints headIndices kpt_conf_threshold
  let shoulder_y_coords := collectYCoords keypoints shoulderIndices kpt_conf_threshold
  if head_y_coords.length = 0 ∨ shoulder_y_coords.length = 0 then
    false
  else
    decide (listMean head_y_coords ≥ listMean shoulder_y_coords)

/-- Python `detection[i]` on a row modelled as a list: the value when the
index is in range, an error (IndexError / a failed triple unpacking)
otherwise. -/
def getRow : List ℚ → ℕ → Except String ℚ
  | [], _ => Except.error "IndexError"
  | v :: _, 0 => Except.ok v
  | _ :: rest, n + 1 => getRow rest n

/-- The inline scaling of `process_pose_detections`
(`int(x * scale_x)`, `int(y * scale_y)`), the `scale_point` operation of the
spec, applied to box corners and keypoints alike. -/
def scale_point (x y scaleX scaleY : ℚ) : ℤ × ℤ :=
  (pyInt (x * scaleX), pyInt (y * scaleY))

/-- The inline box adjustment of `process_pose_detections`:
`x1 = max(0, x1)`, `y1 = max(0, y1)`, `x2 = min(w - 1, x2)`,
`y2 = min(h - 1, y2)`. -/
def clamp_box (x1 y1 x2 y2 w h : ℤ) : ℤ × ℤ × ℤ × ℤ :=
  (max 0 x1, max 0 y1, min (w - 1) x2, min (h - 1) y2)

/-- One structured detection, as assembled inside the loop of
`process_pose_detections` and handed to rendering: clamped scaled box,
score, class id, the 17 scaled keypoints, and the per-detection verdict. -/
structure Detection where
  box : ℤ × ℤ × ℤ × ℤ
  score : ℚ
  classId : ℤ
  keypoints : List (ℤ × ℤ × ℚ)
  isDrowsy : Bool
deriving DecidableEq

/-- The keypoint loop of `process_pose_detections`: parse `n` keypoint
triples starting at keypoint index `k`, reading row entries
`6 + 3*k`, `6 + 3*k + 1`, `6 + 3*k + 2` and scaling the coordinates with
`int(.. * scale)`.  A missing entry is the unpacking error Python raises on
a short slice. -/
def parseKeypointsFrom (d : List ℚ) (scaleX scaleY : ℚ) : ℕ → ℕ → Except String (List (ℤ × ℤ × ℚ))
  | _, 0 => Except.ok []
  | k, n + 1 => do
    let kx ← getRow d (6 + 3 * k)
    let ky ← getRow d (6 + 3 * k + 1)
    let kconf ← getRow d (6 + 3 * k + 2)
    let rest ← parseKeypointsFrom d scaleX scaleY (k + 1) n
    Except.ok ((pyInt (kx * scaleX), pyInt (ky * scaleY), kconf) :: rest)

/-- The 17 keypoints of one detection row (`for kpt_idx in range(17)`). -/
def parseKeypoints (d : List ℚ) (scaleX scaleY : ℚ) : Except String (List (ℤ × ℤ × ℚ)) :=
  parseKeypointsFrom d scaleX scaleY 0 17

/-- The confidence filter of `process_pose_detections`: keep, in order, the
rows whose entry at index 4 is strictly above `conf_threshold`.  Reading
index 4 of a too-short row is an error. -/
def filterValid (rows : List (List ℚ)) (conf_threshold : ℚ) : Except String (List (List ℚ)) :=
  match rows with
  | [] => Except.ok []
  | d :: rest => do
    let score ← getRow d 4
    let tail ← filterValid rest conf_threshold
    if score > conf_threshold then Except.ok (d :: tail) else Except.ok tail

/-- The per-detection body of the loop in `process_pose_detections`:
unpack box, score and class, scale and clamp the box, parse and scale the
17 keypoints, and classify. -/
def processRow (d : List ℚ) (scaleX scaleY : ℚ) (ow oh : ℤ) (kpt_conf_threshold : ℚ) :
    Except String Detection := do
  let x1 ← getRow d 0
  let y1 ← getRow d 1
  let x2 ← getRow d 2
  let y2 ← getRow d 3
  let score ← getRow d 4
  let cls ← getRow d 5
  let (sx1, sy1) := scale_point x1 y1 scaleX scaleY
  let (sx2, sy2) := scale_point x2 y2 scaleX scaleY
  let (cx1, cy1, cx2, cy2) := clamp_box sx1 sy1 sx2 sy2 ow oh
  let kps ← parseKeypoints d scaleX scaleY
  let verdict := check_drowsiness (kps.map fun kp => ((kp.1 : ℚ), (kp.2.1 : ℚ), kp.2.2)) kpt_conf_threshold
  Except.ok ⟨(cx1, cy1, cx2, cy2), score, pyInt cls, kps, verdict⟩

/-- The detection loop of `process_pose_detections`, in row order. -/
def processRows (ds : List (List ℚ)) (scaleX scaleY : ℚ) (ow oh : ℤ) (kpt_conf_threshold : ℚ) :
    Except String (List Detection) :=
  match ds with
  | [] => Except.ok []
  | d :: rest => do
    let det ← processRow d scaleX scaleY ow oh kpt_conf_threshold
    let tail ← processRows rest scaleX scaleY ow oh kpt_conf_threshold
    Except.ok (det :: tail)

/-- The `drowsiness_detected` accumulator of `process_pose_detections`:
starts at `False` and is or-ed with each detection's verdict in loop order. -/
def anyDrowsyAcc (dets : List Detection) : Bool :=
  dets.foldl (fun acc d => acc || d.isDrowsy) false

/-- Embedding of `process_pose_detections`: `rows` is `outputs[0][0]`
(batch dimension stripped), `ow × oh` the original image size, `inputSize`
the model input size.  Returns the structured detections handed to rendering
together with the frame-level `drowsiness_detected` flag; an `Except.error`
is an uncaught Python exception aborting the whole call. -/
def process_pose_detections (rows : List (List ℚ)) (ow oh : ℤ) (inputSize : ℤ)
    (conf_threshold kpt_conf_threshold : ℚ) : Except String (List Detection × Bool) := do
  let scaleX : ℚ := (ow : ℚ) / (inputSize : ℚ)
  let scaleY : ℚ := (oh : ℚ) / (inputSize : ℚ)
  let valid ← filterValid rows conf_threshold
  let dets ← processRows valid scaleX scaleY ow oh kpt_conf_threshold
  Except.ok (dets, anyDrowsyAcc dets)

theorem exceptOk_bind {α β : Type} (a : α) (f : α → Except String β) :
    (Except.ok a >>= f) = f a := rfl

theorem exceptError_bind {α β : Type} (e : String) (f : α → Except String β) :
    ((Except.error e : Except String α) >>= f) = Except.error e := rfl

theorem getRow_ok : ∀ (d : List ℚ) (i : ℕ), i < d.length → getRow d i = Except.ok (d.getD i 0)
  | [], i, h => absurd h (by simp)
  | _ :: _, 0, _ => rfl
  | _ :: rest, i + 1, h => by
    simpa [getRow, List.getD] using getRow_ok rest i (by simpa using h)

theorem getRow_err : ∀ (d : List ℚ) (i : ℕ), d.length ≤ i → getRow d i = Except.error "IndexError"
  | [], _, _ => rfl
  | _ :: _, 0, h => absurd h (by simp)
  | _ :: rest, i + 1, h => by
    simpa [getRow] using getRow_err rest i (by simpa using h)

theorem filterValid_eq_filter (rows : List (List ℚ)) (t : ℚ)
    (h : ∀ d ∈ rows, 5 ≤ d.length) :
    filterValid rows t = Except.ok (rows.filter fun d => decide (d.getD 4 0 > t)) := by
  induction rows with
  | nil => rfl
  | cons d rest ih =>
    have hd : 5 ≤ d.length := h d (by simp)
    have hrest : ∀ x ∈ rest, 5 ≤ x.length := fun x hx => h x (by simp [hx])
    rw [filterValid, getRow_ok d 4 (by omega), exceptOk_bind, ih hrest, exceptOk_bind,
      List.filter_cons]
    by_cases hc : d.getD 4 0 > t
    · rw [if_pos hc, if_pos (decide_eq_true hc)]
    · rw [if_neg hc, if_neg (by simpa using hc)]

theorem foldl_or_drowsy (dets : List Detection) (b : Bool) :
    dets.foldl (fun acc d => acc || d.isDrowsy) b = (b || dets.any (·.isDrowsy)) := by
  induction dets generalizing b with
  | nil => simp
  | cons d rest ih => simp [List.foldl_cons, ih, Bool.or_assoc]

theorem anyDrowsyAcc_eq_any (dets : List Detection) :
    anyDrowsyAcc dets = dets.any (·.isDrowsy) := by
  simp [anyDrowsyAcc, foldl_or_drowsy]

theorem parseKeypointsFrom_error (d : List ℚ) (scaleX scaleY : ℚ) :
    ∀ (n k : ℕ), 0 < n → d.length < 6 + 3 * k + 3 * n →
      parseKeypointsFrom d scaleX scaleY k n = Except.error "IndexError" := by
  intro n
  induction n with
  | zero => intro k h; omega
  | succ m ih =>
    intro k _ hlen
    by_cases h0 : d.length ≤ 6 + 3 * k
    · rw [parseKeypointsFrom, getRow_err d _ h0, exceptError_bind]
    · by_cases h1 : d.length ≤ 6 + 3 * k + 1
      · rw [parseKeypointsFrom, getRow_ok d _ (by omega), exceptOk_bind,
          getRow_err d _ h1, exceptError_bind]
      · by_cases h2 : d.length ≤ 6 + 3 * k + 2
        · rw [parseKeypointsFrom, getRow_ok d _ (by omega), exceptOk_bind,
            getRow_ok d _ (by omega), exceptOk_bind, getRow_err d _ h2, exceptError_bind]
        · cases m with
          | zero => omega
          | succ m' =>
            rw [parseKeypointsFrom, getRow_ok d _ (by omega), exceptOk_bind,
              getRow_ok d _ (by omega), exceptOk_bind, getRow_ok d _ (by omega), exceptOk_bind,
              ih (k + 1) (by omega) (by omega), exceptError_bind]

theorem processRow_short (d : List ℚ) (scaleX scaleY : ℚ) (ow oh : ℤ) (kt : ℚ)
    (hlen : d.length = 50) :
    processRow d scaleX scaleY ow oh kt = Except.error "IndexError" := by
  rw [processRow, getRow_ok d 0 (by omega), exceptOk_bind, getRow_ok d 1 (by omega),
    exceptOk_bind, getRow_ok d 2 (by omega), exceptOk_bind, getRow_ok d 3 (by omega),
    exceptOk_bind, getRow_ok d 4 (by omega), exceptOk_bind, getRow_ok d 5 (by omega),
    exceptOk_bind]
  rw [show parseKeypoints d scaleX scaleY = Except.error "IndexError" from
    parseKeypointsFrom_error d scaleX scaleY 17 0 (by omega) (by omega)]
  rfl

theorem process_short_row (d : List ℚ) (ow oh inputSize : ℤ) (confT kptT : ℚ)
    (hlen : d.length = 50) (hscore : d.getD 4 0 > confT) :
    process_pose_detections [d] ow oh inputSize confT kptT = Except.error "IndexError" := by
  rw [process_pose_detections]
  rw [show filterValid [d] confT = Except.ok [d] by
    rw [filterValid, getRow_ok d 4 (by omega), exceptOk_bind, filterValid, exceptOk_bind,
      if_pos hscore]]
  rw [exceptOk_bind, processRows, processRow_short d _ _ ow oh kptT hlen, exceptError_bind,
    exceptError_bind]

/-- A raw row (width 57) whose box and nose keypoint lie outside the 640×640
image: box `(-5, -5, 700, 700)`, score `9/10`, class `0`, nose at
`(-5, 700)` with confidence `9/10`, the 16 other keypoints at `(10, 10)`
with confidence `9/10`. -/
def c10_row : List ℚ :=
  [-5, -5, 700, 700, 9/10, 0,
   -5, 700, 9/10,
   10, 10, 9/10, 10, 10, 9/10, 10, 10, 9/10, 10, 10, 9/10,
   10, 10, 9/10, 10, 10, 9/10, 10, 10, 9/10, 10, 10, 9/10,
   10, 10, 9/10, 10, 10, 9/10, 10, 10, 9/10, 10, 10, 9/10,
   10, 10, 9/10, 10, 10, 9/10, 10, 10, 9/10, 10, 10, 9/10]

/-- The scaled keypoints the pipeline emits for `c10_row` at scale 1. -/
def c10_kps : List (ℤ × ℤ × ℚ) :=
  [(-5, 700, 9/10),
   (10, 10, 9/10), (10, 10, 9/10), (10, 10, 9/10), (10, 10, 9/10),
   (10, 10, 9/10), (10, 10, 9/10), (10, 10, 9/10), (10, 10, 9/10),
   (10, 10, 9/10), (10, 10, 9/10), (10, 10, 9/10), (10, 10, 9/10),
   (10, 10, 9/10), (10, 10, 9/10), (10, 10, 9/10), (10, 10, 9/10)]

theorem length_filter_mono {α : Type} (l : List α) (p q : α → Bool)
    (himp : ∀ a, p a = true → q a = true) :
    (l.filter p).length ≤ (l.filter q).length := by
  induction l with
  | nil => simp
  | cons a rest ih =>
    rw [List.filter_cons, List.filter_cons]
    by_cases hp : p a = true
    · rw [if_pos hp, if_pos (himp a hp)]
      simpa using ih
    · rw [if_neg hp]
      by_cases hq : q a = true
      · rw [if_pos hq]
        exact le_trans ih (by simp)
      · rw [if_neg hq]
        exact ih

/-- A 17-keypoint list with all head y-coordinates 300, shoulder
y-coordinates 280, confidences 9/10 elsewhere 0. -/
def c1_kps : List (ℚ × ℚ × ℚ) :=
  [(0, 300, 9/10), (0, 300, 9/10), (0, 300, 9/10), (0, 300, 9/10), (0, 300, 9/10),
   (0, 280, 9/10), (0, 280, 9/10), (0, 0, 0), (0, 0, 0), (0, 0, 0), (0, 0, 0),
   (0, 0, 0), (0, 0, 0), (0, 0, 0), (0, 0, 0), (0, 0, 0), (0, 0, 0)]

/-- A 17-keypoint list whose head keypoints all have confidence 0. -/
def c2_kps : List (ℚ × ℚ × ℚ) :=
  [(0, 300, 0), (0, 300, 0), (0, 300, 0), (0, 300, 0), (0, 300, 0),
   (0, 280, 9/10), (0, 280, 9/10), (0, 0, 0), (0, 0, 0), (0, 0, 0), (0, 0, 0),
   (0, 0, 0), (0, 0, 0), (0, 0, 0), (0, 0, 0), (0, 0, 0), (0, 0, 0)]

/-- Same head/shoulder entries as `c9_kps_b`, different body entries. -/
def c9_kps_a : List (ℚ × ℚ × ℚ) :=
  [(0, 300, 9/10), (0, 300, 9/10), (0, 300, 9/10), (0, 300, 9/10), (0, 300, 9/10),
   (0, 280, 9/10), (0, 280, 9/10), (1, 2, 9/10), (3, 4, 9/10), (5, 6, 9/10),
   (7, 8, 9/10), (9, 10, 9/10), (11, 12, 9/10), (13, 14, 9/10), (15, 16, 9/10),
   (17, 18, 9/10), (19, 20, 9/10)]

/-- Same head/shoulder entries as `c9_kps_a`, different body entries. -/
def c9_kps_b : List (ℚ × ℚ × ℚ) :=
  [(0, 300, 9/10), (0, 300, 9/10), (0, 300, 9/10), (0, 300, 9/10), (0, 300, 9/10),
   (0, 280, 9/10), (0, 280, 9/10), (0, 0, 0), (0, 0, 0), (0, 0, 0),
   (0, 0, 0), (0, 0, 0), (0, 0, 0), (0, 0, 0), (0, 0, 0),
   (0, 0, 0), (0, 0, 0)]

/-- A width-57 row with box score 9/10. -/
def row57_hi : List ℚ := List.replicate 4 0 ++ [9/10] ++ List.replicate 52 0

/-- A width-57 row with box score 1/10. -/
def row57_lo : List ℚ := List.replicate 4 0 ++ [1/10] ++ List.replicate 52 0

/-- A width-57 row with box score 3/10. -/
def row57_mid : List ℚ := List.replicate 4 0 ++ [3/10] ++ List.replicate 45 0 ++ List.replicate 7 0

/-- A malformed width-50 row with box score 9/10. -/
def c4_row : List ℚ := List.replicate 4 0 ++ [9/10] ++ List.replicate 45 0

/-- C1: for a 17-keypoint list and threshold, when both the collected head
y-coordinates (indices 0-4, confidence strictly above the threshold) and the
collected shoulder y-coordinates (indices 5-6) are non-empty, the verdict is
drowsy exactly when the arithmetic mean of the head y-coordinates is at
least the arithmetic mean of the shoulder y-coordinates. -/
theorem C1_drowsy_iff_head_mean_ge_shoulder_mean (kps : List (ℚ × ℚ × ℚ)) (t : ℚ)
    (hlen : kps.length = 17)
    (hh : collectYCoords kps headIndices t ≠ [])
    (hs : collectYCoords kps shoulderIndices t ≠ []) :
    (check_drowsiness kps t = true ↔
      listMean (collectYCoords kps headIndices t) ≥
        listMean (collectYCoords kps shoulderIndices t)) := by
  simp only [check_drowsiness]
  rw [if_neg]
  · exact decide_eq_true_iff
  · rw [not_or]
    exact ⟨by simpa [List.length_eq_zero] using hh, by simpa [List.length_eq_zero] using hs⟩

/-- C1 witness: the concrete list `c1_kps` (head mean 300, shoulder mean
280, threshold 1/5) is classified drowsy via the main theorem. -/
theorem C1_drowsy_iff_head_mean_ge_shoulder_mean_witness :
    check_drowsiness c1_kps (1/5) = true :=
  (C1_drowsy_iff_head_mean_ge_shoulder_mean c1_kps (1/5) rfl
    (by norm_num [collectYCoords, headIndices, c1_kps, List.getD, List.filterMap_cons,
      List.filterMap_nil] <;> exact List.cons_ne_nil _ _)
    (by norm_num [collectYCoords, shoulderIndices, c1_kps, List.getD, List.filterMap_cons,
      List.filterMap_nil] <;> exact List.cons_ne_nil _ _)).mpr
    (by norm_num [listMean, collectYCoords, headIndices, shoulderIndices, c1_kps, List.getD,
      List.filterMap_cons, List.filterMap_nil])

/-- C2: for a 17-keypoint list, if the collected head y-coordinates or the
collected shoulder y-coordinates are empty, the verdict is normal (false)
regardless of coordinates. -/
theorem C2_insufficient_keypoints_default_normal (kps : List (ℚ × ℚ × ℚ)) (t : ℚ)
    (hlen : kps.length = 17)
    (h : collectYCoords kps headIndices t = [] ∨ collectYCoords kps shoulderIndices t = []) :
    check_drowsiness kps t = false := by
  simp only [check_drowsiness]
  rcases h with h | h
  · rw [if_pos (Or.inl (by simp [h]))]
  · rw [if_pos (Or.inr (by simp [h]))]

/-- C2 witness: with all head confidences 0 and threshold 1/5 the verdict
is normal, via the main theorem. -/
theorem C2_insufficient_keypoints_default_normal_witness :
    check_drowsiness c2_kps (1/5) = false :=
  C2_insufficient_keypoints_default_normal c2_kps (1/5) rfl
    (Or.inl (by norm_num [collectYCoords, headIndices, c2_kps, List.getD, List.filterMap_cons,
      List.filterMap_nil]))

/-- C9: the verdict depends only on keypoints 0-6: two 17-keypoint lists
that agree at indices 0 through 6 receive the same verdict at any
threshold. -/
theorem C9_verdict_depends_only_on_head_shoulders (k1 k2 : List (ℚ × ℚ × ℚ)) (t : ℚ)
    (h1 : k1.length = 17) (h2 : k2.length = 17)
    (hagree : ∀ i, i < 7 → k1.getD i (0, 0, 0) = k2.getD i (0, 0, 0)) :
    check_drowsiness k1 t = check_drowsiness k2 t := by
  simp only [check_drowsiness, collectYCoords, headIndices, shoulderIndices, List.map_cons,
    List.map_nil, hagree 0 (by norm_num), hagree 1 (by norm_num), hagree 2 (by norm_num),
    hagree 3 (by norm_num), hagree 4 (by norm_num), hagree 5 (by norm_num),
    hagree 6 (by norm_num)]

/-- C9 witness: two concrete lists agreeing at indices 0-6 but with
entirely different body keypoints receive the same verdict. -/
theorem C9_verdict_depends_only_on_head_shoulders_witness :
    check_drowsiness c9_kps_a (1/5) = check_drowsiness c9_kps_b (1/5) :=
  C9_verdict_depends_only_on_head_shoulders c9_kps_a c9_kps_b (1/5) rfl rfl
    (by intro i hi; interval_cases i <;> rfl)

/-- C3: for a tensor whose rows all have width 57, the decoder's filter
keeps exactly the rows whose entry at index 4 is strictly above the
threshold, in input order, and returns the empty list (not an error) when
no row passes. -/
theorem C3_decoder_filter_stable (rows : List (List ℚ)) (t : ℚ)
    (h : ∀ d ∈ rows, d.length = 57) :
    filterValid rows t = Except.ok (rows.filter fun d => decide (d.getD 4 0 > t)) ∧
      ((∀ d ∈ rows, ¬ d.getD 4 0 > t) → filterValid rows t = Except.ok []) := by
  have h5 : ∀ d ∈ rows, 5 ≤ d.length := fun d hd => by rw [h d hd]; norm_num
  have hmain := filterValid_eq_filter rows t h5
  refine ⟨hmain, fun hnone => ?_⟩
  rw [hmain]
  congr 1
  rw [List.filter_eq_nil]
  intro d hd
  simpa using hnone d hd

/-- C3 witness: of two width-57 rows with scores 9/10 and 1/10, only the
first survives the 1/4 threshold, in order. -/
theorem C3_decoder_filter_stable_witness :
    filterValid [row57_hi, row57_lo] (1/4) = Except.ok [row57_hi] := by
  rw [(C3_decoder_filter_stable [row57_hi, row57_lo] (1/4)
    (by intro d hd; fin_cases hd <;> rfl)).1]
  norm_num [List.filter_cons, List.filter_nil,
    show (row57_hi[4]? : Option ℚ) = some (9/10) from rfl,
    show (row57_lo[4]? : Option ℚ) = some (1/10) from rfl, Option.getD_some]

/-- C8: for width-57 rows and thresholds `0 < t1 ≤ t2 ≤ 1`, the filter at
the higher threshold keeps at most as many rows as the filter at the lower
threshold. -/
theorem C8_filter_antitone_in_threshold (rows : List (List ℚ)) (t1 t2 : ℚ)
    (h : ∀ d ∈ rows, d.length = 57) (h0 : 0 < t1) (h12 : t1 ≤ t2) (h1 : t2 ≤ 1)
    (kept1 kept2 : List (List ℚ))
    (e1 : filterValid rows t1 = Except.ok kept1)
    (e2 : filterValid rows t2 = Except.ok kept2) :
    kept2.length ≤ kept1.length := by
  have h5 : ∀ d ∈ rows, 5 ≤ d.length := fun d hd => by rw [h d hd]; norm_num
  rw [filterValid_eq_filter rows t1 h5] at e1
  rw [filterValid_eq_filter rows t2 h5] at e2
  obtain rfl : kept1 = rows.filter fun d => decide (d.getD 4 0 > t1) := (Except.ok.inj e1).symm
  obtain rfl : kept2 = rows.filter fun d => decide (d.getD 4 0 > t2) := (Except.ok.inj e2).symm
  refine length_filter_mono rows _ _ fun a ha => ?_
  simp only [decide_eq_true_eq] at ha ⊢
  exact lt_of_le_of_lt h12 ha

/-- C8 witness: at thresholds 1/4 and 1/2 over rows with scores 9/10 and
3/10, the higher threshold keeps 1 row and the lower keeps 2. -/
theorem C8_filter_antitone_in_threshold_witness :
    ([row57_hi] : List (List ℚ)).length ≤ ([row57_hi, row57_mid] : List (List ℚ)).length :=
  C8_filter_antitone_in_threshold [row57_hi, row57_mid] (1/4) (1/2)
    (by intro d hd; fin_cases hd <;> rfl) (by norm_num) (by norm_num) (by norm_num)
    [row57_hi, row57_mid] [row57_hi]
    (by norm_num [filterValid, exceptOk_bind,
      show getRow row57_hi 4 = Except.ok (9/10) from rfl,
      show getRow row57_mid 4 = Except.ok (3/10) from rfl])
    (by norm_num [filterValid, exceptOk_bind,
      show getRow row57_hi 4 = Except.ok (9/10) from rfl,
      show getRow row57_mid 4 = Except.ok (3/10) from rfl])

/-- C4 counterexample: on a tensor with one width-50 row passing the score
filter, `process_pose_detections` propagates an uncaught indexing error —
it does not continue with zero detections for the frame. -/
theorem C4_format_error_counterexample :
    process_pose_detections [c4_row] 640 640 640 (1/4) (1/5) = Except.error "IndexError" ∧
      process_pose_detections [c4_row] 640 640 640 (1/4) (1/5) ≠ Except.ok ([], false) := by
  have h := process_short_row c4_row 640 640 640 (1/4) (1/5) rfl
    (by rw [show c4_row.getD 4 0 = (9/10 : ℚ) from rfl]; norm_num)
  exact ⟨h, by rw [h]; simp⟩

/-- C4 (amended): a width-50 row that passes the box-confidence filter
makes `process_pose_detections` raise an uncaught indexing/unpacking error
while reading its keypoint triples; the error aborts the whole call (there
is no handler), rather than being confined to the frame with zero
detections. -/
theorem C4_uncaught_index_error (d : List ℚ) (ow oh inputSize : ℤ) (confT kptT : ℚ)
    (hlen : d.length = 50) (hscore : d.getD 4 0 > confT) :
    process_pose_detections [d] ow oh inputSize confT kptT = Except.error "IndexError" :=
  process_short_row d ow oh inputSize confT kptT hlen hscore

/-- C4 witness: the concrete width-50 row `c4_row` with score 9/10 at
threshold 1/4 triggers the uncaught error, via the main theorem. -/
theorem C4_uncaught_index_error_witness :
    c4_row.length = 50 ∧ c4_row.getD 4 0 > (1/4 : ℚ) ∧
      process_pose_detections [c4_row] 640 640 640 (1/4) (1/5) = Except.error "IndexError" :=
  ⟨rfl, by rw [show c4_row.getD 4 0 = (9/10 : ℚ) from rfl]; norm_num,
    C4_uncaught_index_error c4_row 640 640 640 (1/4) (1/5) rfl
      (by rw [show c4_row.getD 4 0 = (9/10 : ℚ) from rfl]; norm_num)⟩

/-- C5 counterexample: at `x = y = 1`, `scale_x = 19/10`, `scale_y = 1`,
the code's scaling yields 1 for the x-coordinate while rounding to the
nearest integer would yield 2. -/
theorem C5_round_counterexample :
    scale_point 1 1 (19/10) 1 ≠ (round ((1:ℚ) * (19/10)), round ((1:ℚ) * 1)) := by
  have hfloor : ⌊(19:ℚ)/10⌋ = 1 := by
    rw [Int.floor_eq_iff]
    norm_num
  have hL : scale_point 1 1 (19/10) 1 = (1, 1) := by
    simp only [scale_point, pyInt, one_mul, mul_one]
    rw [if_pos (by norm_num : (0:ℚ) ≤ 19/10), if_pos (by norm_num : (0:ℚ) ≤ 1), hfloor]
    norm_num
  have h2 : round ((1:ℚ) * (19/10)) = 2 := by
    rw [one_mul, round_eq, show (19:ℚ)/10 + 1/2 = 12/5 by norm_num, Int.floor_eq_iff]
    norm_num
  have h4 : round ((1:ℚ) * 1) = 1 := by
    rw [mul_one, round_eq, show (1:ℚ) + 1/2 = 3/2 by norm_num, Int.floor_eq_iff]
    norm_num
  rw [hL, h2, h4]
  decide

/-- C5 (amended): the scaling operation truncates the products toward zero
(floor for a nonnegative product, ceiling for a negative one), rather than
rounding to the nearest integer. -/
theorem C5_truncation_toward_zero (x y scaleX scaleY : ℚ) :
    (0 ≤ x * scaleX → ((scale_point x y scaleX scaleY).1 : ℚ) ≤ x * scaleX ∧
      x * scaleX < (scale_point x y scaleX scaleY).1 + 1) ∧
    (x * scaleX < 0 → x * scaleX ≤ ((scale_point x y scaleX scaleY).1 : ℚ) ∧
      ((scale_point x y scaleX scaleY).1 : ℚ) - 1 < x * scaleX) ∧
    (0 ≤ y * scaleY → ((scale_point x y scaleX scaleY).2 : ℚ) ≤ y * scaleY ∧
      y * scaleY < (scale_point x y scaleX scaleY).2 + 1) ∧
    (y * scaleY < 0 → y * scaleY ≤ ((scale_point x y scaleX scaleY).2 : ℚ) ∧
      ((scale_point x y scaleX scaleY).2 : ℚ) - 1 < y * scaleY) := by
  simp only [scale_point, pyInt]
  refine ⟨fun h => ?_, fun h => ?_, fun h => ?_, fun h => ?_⟩
  · rw [if_pos h]
    exact ⟨Int.floor_le _, Int.lt_floor_add_one _⟩
  · rw [if_neg (not_le.mpr h)]
    exact ⟨Int.le_ceil _, by linarith [Int.ceil_lt_add_one (x * scaleX)]⟩
  · rw [if_pos h]
    exact ⟨Int.floor_le _, Int.lt_floor_add_one _⟩
  · rw [if_neg (not_le.mpr h)]
    exact ⟨Int.le_ceil _, by linarith [Int.ceil_lt_add_one (y * scaleY)]⟩

/-- C5 witness: the truncation bounds at `x = y = 1`, `scale_x = 19/10`,
`scale_y = 1`, via the main theorem. -/
theorem C5_truncation_toward_zero_witness :
    ((scale_point 1 1 (19/10) 1).1 : ℚ) ≤ 1 * (19/10) ∧
      (1 : ℚ) * (19/10) < (scale_point 1 1 (19/10) 1).1 + 1 :=
  (C5_truncation_toward_zero 1 1 (19/10) 1).1 (by norm_num)

/-- C6 counterexample: with image width 10, an already-scaled box with
`x1 = 100` keeps `x1 = 100 > width - 1`, and with `x2 = -5` keeps
`x2 = -5 < 0`: the first corner is not capped and the second is not
floored. -/
theorem C6_two_sided_clamp_counterexample :
    ¬ ((clamp_box 100 0 (-5) 5 10 10).1 ≤ 10 - 1 ∧
      0 ≤ (clamp_box 100 0 (-5) 5 10 10).2.2.1) := by
  decide

/-- C6 (amended): the box adjustment clamps one-sidedly: `x1`, `y1` are
only floored at 0 (left unchanged when already nonnegative, never capped),
and `x2`, `y2` are only capped at `width-1`, `height-1` (left unchanged
when already within, never floored). -/
theorem C6_one_sided_clamp (x1 y1 x2 y2 w h : ℤ) :
    0 ≤ (clamp_box x1 y1 x2 y2 w h).1 ∧ 0 ≤ (clamp_box x1 y1 x2 y2 w h).2.1 ∧
    (clamp_box x1 y1 x2 y2 w h).2.2.1 ≤ w - 1 ∧ (clamp_box x1 y1 x2 y2 w h).2.2.2 ≤ h - 1 ∧
    x1 ≤ (clamp_box x1 y1 x2 y2 w h).1 ∧ y1 ≤ (clamp_box x1 y1 x2 y2 w h).2.1 ∧
    (clamp_box x1 y1 x2 y2 w h).2.2.1 ≤ x2 ∧ (clamp_box x1 y1 x2 y2 w h).2.2.2 ≤ y2 ∧
    (0 ≤ x1 → (clamp_box x1 y1 x2 y2 w h).1 = x1) ∧
    (0 ≤ y1 → (clamp_box x1 y1 x2 y2 w h).2.1 = y1) ∧
    (x2 ≤ w - 1 → (clamp_box x1 y1 x2 y2 w h).2.2.1 = x2) ∧
    (y2 ≤ h - 1 → (clamp_box x1 y1 x2 y2 w h).2.2.2 = y2) := by
  simp only [clamp_box]
  exact ⟨le_max_left 0 x1, le_max_left 0 y1, min_le_left _ _, min_le_left _ _,
    le_max_right 0 x1, le_max_right 0 y1, min_le_right _ _, min_le_right _ _,
    fun hx => max_eq_right hx, fun hy => max_eq_right hy,
    fun hx => min_eq_right hx, fun hy => min_eq_right hy⟩

/-- C6 witness: the one-sided behavior at a concrete box, via the main
theorem (a negative `x1` is floored to 0; an in-range `y1` is untouched). -/
theorem C6_one_sided_clamp_witness :
    0 ≤ (clamp_box (-7) 3 20 5 10 10).1 ∧ (clamp_box (-7) 3 20 5 10 10).2.1 = 3 :=
  ⟨(C6_one_sided_clamp (-7) 3 20 5 10 10).1,
    (C6_one_sided_clamp (-7) 3 20 5 10 10).2.2.2.2.2.2.2.2.2.1 (by norm_num)⟩

/-- C7: whenever `process_pose_detections` returns successfully, the frame
flag is true exactly when some emitted detection's verdict is drowsy, and
it is false on an empty detection list (the accumulator restarts at false
for each call). -/
theorem C7_frame_flag_or_of_verdicts (rows : List (List ℚ)) (ow oh inputSize : ℤ)
    (confT kptT : ℚ) (dets : List Detection) (flag : Bool)
    (h : process_pose_detections rows ow oh inputSize confT kptT = Except.ok (dets, flag)) :
    (flag = true ↔ ∃ d ∈ dets, d.isDrowsy = true) ∧ (dets = [] → flag = false) := by
  simp only [process_pose_detections] at h
  cases hfv : filterValid rows confT with
  | error e =>
    rw [hfv, exceptError_bind] at h
    simp at h
  | ok valid =>
    rw [hfv, exceptOk_bind] at h
    cases hpr : processRows valid ((ow : ℚ) / (inputSize : ℚ)) ((oh : ℚ) / (inputSize : ℚ))
        ow oh kptT with
    | error e =>
      rw [hpr, exceptError_bind] at h
      simp at h
    | ok dets2 =>
      rw [hpr, exceptOk_bind] at h
      have hinj := Except.ok.inj h
      obtain rfl : dets2 = dets := congrArg Prod.fst hinj
      obtain rfl : anyDrowsyAcc dets2 = flag := congrArg Prod.snd hinj
      refine ⟨?_, fun hnil => ?_⟩
      · rw [anyDrowsyAcc_eq_any]
        simp [List.any_eq_true]
      · subst hnil
        rfl

/-- C7 witness: on an empty tensor the pipeline returns no detections and
a false flag, and the flag equivalence holds, via the main theorem. -/
theorem C7_frame_flag_or_of_verdicts_witness :
    ((false = true) ↔ ∃ d ∈ ([] : List Detection), d.isDrowsy = true) ∧
      (([] : List Detection) = [] → false = false) :=
  C7_frame_flag_or_of_verdicts [] 640 640 640 (1/4) (1/5) [] false rfl

/-- C10: on the concrete tensor `c10_row` (scale 1), the pipeline emits the
nose keypoint at `(-5, 700)` — outside the 640×640 image bounds — while the
box of the same detection is clamped to `(0, 0, 639, 639)`: keypoints are
scaled but never clamped. -/
theorem C10_keypoints_not_clamped :
    process_pose_detections [c10_row] 640 640 640 (1/4) (1/5) =
      Except.ok ([⟨(0, 0, 639, 639), 9/10, 0, c10_kps, true⟩], true) ∧
    (c10_kps.getD 0 (0, 0, 0)).1 < 0 ∧ 640 - 1 < (c10_kps.getD 0 (0, 0, 0)).2.1 := by
  refine ⟨?_, by decide, by decide⟩
  norm_num [process_pose_detections, filterValid, processRows, processRow, parseKeypoints,
    parseKeypointsFrom, getRow, scale_point, clamp_box, pyInt, check_drowsiness, collectYCoords,
    headIndices, shoulderIndices, listMean, anyDrowsyAcc, c10_row, c10_kps,
    exceptOk_bind, exceptError_bind, Int.ceil_neg, List.getD, List.filterMap_cons,
    List.filterMap_nil, max_def, min_def]
  exact ⟨List.cons_ne_nil _ _, List.cons_ne_nil _ _⟩
